import Mathlib

/-!
Verification of the sniper decision core of the rolimons-op-discord-bot
repository: the pre-filter (`src/analysis/filters.py`), the scorer
(`src/sniper/scorer.py`), the engine purchase paths and scan loop
(`src/sniper/engine.py`) and the purchase executor
(`src/sniper/executor.py`) are embedded as pure Lean functions.

Python arbitrary-precision integers are modelled as `Int`, Python floats
as `ℚ` (the float values that occur are small ratios of machine-sized
integers, so rational arithmetic is the intended real-number reading),
`datetime` values as records of calendar fields with the standard civil
calendar linearisation, and the network clients as explicit oracle
arguments (the listings a re-fetch would return, the response a purchase
call would produce).
-/

namespace RISniper

/-! ## Enumerations from `src/data/models.py`, `src/config.py`,
`src/sniper/scorer.py`, `src/analysis/filters.py`,
`src/data/roblox_client.py`. -/

/-- Rolimons demand values (`Demand(IntEnum)` in `models.py`). -/
inductive Demand where
  | NONE
  | TERRIBLE
  | LOW
  | NORMAL
  | HIGH
  | AMAZING
deriving DecidableEq, Repr

/-- Integer value of a demand level, as in the Python `IntEnum`. -/
def Demand.val : Demand → Int
  | .NONE => -1
  | .TERRIBLE => 0
  | .LOW => 1
  | .NORMAL => 2
  | .HIGH => 3
  | .AMAZING => 4

/-- Rolimons trend values (`Trend(IntEnum)` in `models.py`). -/
inductive Trend where
  | NONE
  | LOWERING
  | UNSTABLE
  | STABLE
  | RAISING
  | FLUCTUATING
deriving DecidableEq, Repr

/-- Integer value of a trend level, as in the Python `IntEnum`. -/
def Trend.val : Trend → Int
  | .NONE => -1
  | .LOWERING => 0
  | .UNSTABLE => 1
  | .STABLE => 2
  | .RAISING => 3
  | .FLUCTUATING => 4

/-- Purchase mode options (`PurchaseMode` in `config.py`). -/
inductive PurchaseMode where
  | ALERT_CONFIRM
  | FULL_AUTO
  | HYBRID
deriving DecidableEq, Repr

/-- Strategy flag options (`StrategyFlag` in `config.py`). -/
inductive StrategyFlag where
  | QUICK_FLIPS
  | VALUE_PLAYS
  | RARE_HUNTING
deriving DecidableEq, Repr

/-- UGC handling mode (`UGCMode` in `config.py`). -/
inductive UGCMode where
  | INCLUDE
  | EXCLUDE
deriving DecidableEq, Repr

/-- Result taxonomy of a purchase attempt (`PurchaseResult` in
`roblox_client.py`). -/
inductive PurchaseResult where
  | SUCCESS
  | INSUFFICIENT_FUNDS
  | LISTING_GONE
  | ALREADY_OWNED
  | RATE_LIMITED
  | AUTH_FAILED
  | UNKNOWN_ERROR
deriving DecidableEq, Repr

/-- Score tier classifications (`ScoreTier` in `scorer.py`). -/
inductive ScoreTier where
  | EXCELLENT
  | GOOD
  | RISKY
  | REJECT
deriving DecidableEq, Repr

/-- Tier from a score value (`ScoreTier.from_score` in `scorer.py`). -/
def ScoreTier.from_score (score : Int) : ScoreTier :=
  if score ≥ 85 then .EXCELLENT
  else if score ≥ 70 then .GOOD
  else if score ≥ 50 then .RISKY
  else .REJECT

/-- Reject reasons of the pre-filter (`RejectReason` in `filters.py`). -/
inductive RejectReason where
  | PASSED
  | PROJECTED
  | TERRIBLE_DEMAND
  | NO_DEMAND
  | LOWERING_TREND
  | UGC_EXCLUDED
  | UGC_TOO_NEW
  | TOO_ILLIQUID
  | NO_SALES
  | NO_VALUE
  | PRICE_TOO_HIGH
  | INSUFFICIENT_DISCOUNT
deriving DecidableEq, Repr

/-- Sniper engine states (`EngineState` in `engine.py`). -/
inductive EngineState where
  | STOPPED
  | STARTING
  | RUNNING
  | STOPPING
  | PAUSED
  | ERROR
deriving DecidableEq, Repr

/-! ## Calendar time

`datetime.utcnow()` values are records of calendar fields.  The code
compares datetimes, subtracts them (`total_seconds`, `.days`) and also
builds them field-wise (the rate-limit windows), so the embedding keeps
the fields and linearises with the standard proleptic-Gregorian civil
calendar (exactly what CPython's `datetime` arithmetic implements). -/

structure DTime where
  year : Int
  month : Int
  day : Int
  hour : Int
  minute : Int
  second : Int
  micro : Int
deriving DecidableEq, Repr

/-- Day count of a civil date from the epoch 1970-01-01 (standard
`days_from_civil` algorithm, as CPython's `datetime.toordinal` shifted
to the Unix epoch). -/
def daysFromCivil (y m d : Int) : Int :=
  let y2 := y - (if m ≤ 2 then 1 else 0)
  let era := y2 / 400
  let yoe := y2 - era * 400
  let doy := (153 * (m + (if m > 2 then (-3 : Int) else 9)) + 2) / 5 + d - 1
  let doe := yoe * 365 + yoe / 4 - yoe / 100 + doy
  era * 146097 + doe - 719468

/-- Seconds-since-epoch of the whole-second part of a datetime. -/
def DTime.toSec (t : DTime) : Int :=
  ((daysFromCivil t.year t.month t.day * 24 + t.hour) * 60 + t.minute) * 60 + t.second

/-- Exact instant of a datetime on the rational timeline. -/
def DTime.toRat (t : DTime) : ℚ :=
  (t.toSec : ℚ) + (t.micro : ℚ) / 1000000

/-- Chronological strict order of datetimes (Python `<` / `>`). -/
def DTime.ltb (a b : DTime) : Bool :=
  decide (a.toRat < b.toRat)

/-! ## Data model (`src/data/models.py`) -/

/-- Roblox limited item with Rolimons data (`Item` in `models.py`).
Fields not read by the verified components (name, acronym,
default value) are omitted; `created_at` is an optional datetime. -/
structure Item where
  item_id : Int
  rap : Int
  value : Int
  demand : Demand
  trend : Trend
  projected : Bool
  hyped : Bool
  rare : Bool
  copies_remaining : Option Int
  recent_sales_30d : Option Int
  is_ugc : Bool
  created_at : Option DTime
deriving DecidableEq, Repr

/-- Resale listing for an item (`Listing` in `models.py`); the seller
name and serial number are not read by the verified components. -/
structure Listing where
  item_id : Int
  seller_id : Int
  price : Int
  product_id : Int
  user_asset_id : Int
deriving DecidableEq, Repr

/-- Response of `RobloxClient.purchase` (`PurchaseResponse` in
`roblox_client.py`), reduced to the fields the callers read. -/
structure PurchaseResponse where
  result : PurchaseResult
  message : String
deriving DecidableEq, Repr

/-- Discount percentage as computed identically by `SnipeScorer.score`
and `PreFilter.filter`: zero when the item has no positive value,
otherwise `(1 - price/value) * 100`. -/
def discountPercent (value : Int) (price : Int) : ℚ :=
  if value ≤ 0 then 0 else (1 - (price : ℚ) / (value : ℚ)) * 100

/-! ## Scorer (`src/sniper/scorer.py`) -/

/-- Detailed breakdown of a score calculation (`ScoreBreakdown`). -/
structure ScoreBreakdown where
  discount_score : Int := 0
  demand_score : Int := 0
  trend_score : Int := 0
  liquidity_score : Int := 0
  stability_score : Int := 0
  rare_bonus : Int := 0
  classic_bonus : Int := 0
  hype_penalty : Int := 0
  ugc_penalty : Int := 0
  strategy_modifier : Int := 0
  base_score : Int := 0
  final_score : Int := 0
deriving DecidableEq, Repr

/-- Result of scoring an item (`ScoreResult`). -/
structure ScoreResult where
  item : Item
  listing_price : Int
  score : Int
  tier : ScoreTier
  breakdown : ScoreBreakdown
  discount_percent : ℚ
deriving DecidableEq, Repr

/-- Scorer instance state (`SnipeScorer.__init__`). -/
structure SnipeScorer where
  strategies : List StrategyFlag
  ugc_mode : UGCMode
deriving DecidableEq, Repr

/-- Demand component score (`SnipeScorer.DEMAND_SCORES`). -/
def DEMAND_SCORES : Demand → Int
  | .AMAZING => 25
  | .HIGH => 20
  | .NORMAL => 12
  | .LOW => 5
  | .TERRIBLE => 0
  | .NONE => 0

/-- Trend component score (`SnipeScorer.TREND_SCORES`). -/
def TREND_SCORES : Trend → Int
  | .RAISING => 20
  | .STABLE => 15
  | .FLUCTUATING => 8
  | .UNSTABLE => 3
  | .LOWERING => 0
  | .NONE => 0

/-- Discount component score: the `DISCOUNT_WEIGHTS` table searched from
the highest threshold downward, first match wins, 0 when none match. -/
def discountScoreOf (dp : ℚ) : Int :=
  if dp ≥ 50 then 30
  else if dp ≥ 40 then 25
  else if dp ≥ 30 then 20
  else if dp ≥ 20 then 10
  else 0

/-- Strategy modifier accumulation over the active strategies
(`SnipeScorer._calculate_strategy_modifier`). -/
def strategyModifierStep (item : Item) (dp : ℚ) (modifier : Int) :
    StrategyFlag → Int
  | .QUICK_FLIPS =>
      match item.recent_sales_30d with
      | some n => if n ≥ 20 then modifier + 15 else if n < 5 then modifier - 10 else modifier
      | none => modifier
  | .VALUE_PLAYS =>
      if dp ≥ 40 ∧ item.trend = .STABLE then modifier + 20
      else if dp ≥ 40 then modifier + 10
      else modifier
  | .RARE_HUNTING =>
      if item.rare ∧ item.demand.val ≥ Demand.HIGH.val then modifier + 25
      else if item.rare ∧ item.demand.val ≥ Demand.NORMAL.val then modifier + 15
      else if ¬item.rare then modifier - 5
      else modifier

/-- Total modifier from all active strategies
(`SnipeScorer._calculate_strategy_modifier`). -/
def SnipeScorer.calculate_strategy_modifier (sc : SnipeScorer) (item : Item)
    (dp : ℚ) : Int :=
  sc.strategies.foldl (strategyModifierStep item dp) 0

/-- Snipe score for an item at a given price (`SnipeScorer.score`). -/
def SnipeScorer.score (sc : SnipeScorer) (item : Item) (listing_price : Int) :
    ScoreResult :=
  let dp := discountPercent item.value listing_price
  if dp < 20 then
    { item := item
      listing_price := listing_price
      score := 0
      tier := .REJECT
      breakdown := {}
      discount_percent := dp }
  else
    let discount_score := discountScoreOf dp
    let demand_score := DEMAND_SCORES item.demand
    let trend_score := TREND_SCORES item.trend
    let liquidity_score :=
      match item.recent_sales_30d with
      | some n =>
          if n ≥ 50 then (15 : Int)
          else if n ≥ 20 then 12
          else if n ≥ 10 then 8
          else if n ≥ 5 then 4
          else 0
      | none => 6
    let stability_score :=
      if item.rap > 0 ∧ item.value > 0 then
        let ratio : ℚ := (item.rap : ℚ) / (item.value : ℚ)
        if 0.85 ≤ ratio ∧ ratio ≤ 1.15 then (10 : Int)
        else if 0.7 ≤ ratio ∧ ratio ≤ 1.3 then 5
        else 0
      else 0
    let rare_bonus : Int :=
      if item.rare ∧ item.demand.val ≥ Demand.HIGH.val then 5 else 0
    let classic_bonus : Int := if ¬item.is_ugc then 3 else 0
    let hype_penalty : Int := if item.hyped then -5 else 0
    let ugc_penalty : Int :=
      if item.is_ugc ∧ sc.ugc_mode = .INCLUDE then -10 else 0
    let base_score := discount_score + demand_score + trend_score
      + liquidity_score + stability_score + rare_bonus + classic_bonus
      + hype_penalty + ugc_penalty
    let strategy_mod := sc.calculate_strategy_modifier item dp
    let final_score := max 0 (min 100 (base_score + strategy_mod))
    { item := item
      listing_price := listing_price
      score := final_score
      tier := ScoreTier.from_score final_score
      breakdown :=
        { discount_score := discount_score
          demand_score := demand_score
          trend_score := trend_score
          liquidity_score := liquidity_score
          stability_score := stability_score
          rare_bonus := rare_bonus
          classic_bonus := classic_bonus
          hype_penalty := hype_penalty
          ugc_penalty := ugc_penalty
          strategy_modifier := strategy_mod
          base_score := base_score
          final_score := final_score }
      discount_percent := dp }

/-! ## Pre-filter (`src/analysis/filters.py`) -/

/-- Result of running pre-filters on an item (`FilterResult`). -/
structure FilterResult where
  passed : Bool
  reason : RejectReason
  item : Item
  listing_price : Int
  discount_percent : ℚ
deriving DecidableEq, Repr

/-- Pre-filter instance state (`PreFilter.__init__`). -/
structure PreFilter where
  ugc_mode : UGCMode
  min_discount : ℚ
  max_price : Int
  min_copies : Int
  max_days_no_sales : Int
  min_ugc_age_days : Int
deriving DecidableEq, Repr

/-- Age in whole days between two datetimes (`(datetime.utcnow() -
item.created_at).days`, a floor of the exact difference). -/
def ageDays (now created : DTime) : Int :=
  ⌊(now.toRat - created.toRat) / 86400⌋

/-- Pre-filter evaluation (`PreFilter.filter`).  The implicit
`datetime.utcnow()` read inside the UGC-age rule is the explicit `now`
argument. -/
def PreFilter.filter (pf : PreFilter) (now : DTime) (item : Item)
    (listing_price : Int) : FilterResult :=
  let dp := discountPercent item.value listing_price
  let reject : RejectReason → FilterResult := fun r =>
    { passed := false
      reason := r
      item := item
      listing_price := listing_price
      discount_percent := dp }
  if item.projected then reject .PROJECTED
  else if item.value ≤ 0 then reject .NO_VALUE
  else if item.demand = .NONE then reject .NO_DEMAND
  else if item.demand = .TERRIBLE then reject .TERRIBLE_DEMAND
  else if item.trend = .LOWERING then reject .LOWERING_TREND
  else if item.is_ugc ∧ pf.ugc_mode = .EXCLUDE then reject .UGC_EXCLUDED
  else if item.is_ugc &&
      (match item.created_at with
       | some c => decide (ageDays now c < pf.min_ugc_age_days)
       | none => false) then reject .UGC_TOO_NEW
  else if (match item.copies_remaining with
       | some c => decide (c < pf.min_copies)
       | none => false) then reject .TOO_ILLIQUID
  else if item.recent_sales_30d = some 0 then reject .NO_SALES
  else if listing_price > pf.max_price then reject .PRICE_TOO_HIGH
  else if dp < pf.min_discount then reject .INSUFFICIENT_DISCOUNT
  else
    { passed := true
      reason := .PASSED
      item := item
      listing_price := listing_price
      discount_percent := dp }

/-- Ordered rule list of §4.1, written from the specification's wording:
each entry pairs the matching condition with the reject reason it
yields, in the listed order.  Used to compare `PreFilter.filter`
against a first-matching-rule evaluation. -/
def preFilterRules (pf : PreFilter) (now : DTime) (item : Item)
    (listing_price : Int) : List (Bool × RejectReason) :=
  [ (item.projected, .PROJECTED),
    (decide (item.value ≤ 0), .NO_VALUE),
    (decide (item.demand = .NONE), .NO_DEMAND),
    (decide (item.demand = .TERRIBLE), .TERRIBLE_DEMAND),
    (decide (item.trend = .LOWERING), .LOWERING_TREND),
    (item.is_ugc && decide (pf.ugc_mode = .EXCLUDE), .UGC_EXCLUDED),
    (item.is_ugc &&
      (match item.created_at with
       | some c => decide (ageDays now c < pf.min_ugc_age_days)
       | none => false), .UGC_TOO_NEW),
    ((match item.copies_remaining with
      | some c => decide (c < pf.min_copies)
      | none => false), .TOO_ILLIQUID),
    (decide (item.recent_sales_30d = some 0), .NO_SALES),
    (decide (listing_price > pf.max_price), .PRICE_TOO_HIGH),
    (decide (discountPercent item.value listing_price < pf.min_discount),
      .INSUFFICIENT_DISCOUNT) ]

/-- First-matching-rule evaluation of an ordered rule list: the reason
of the first rule whose condition holds, `PASSED` when none does.
Rules after the first match do not influence the result. -/
def firstMatchingRule : List (Bool × RejectReason) → RejectReason
  | [] => .PASSED
  | (c, r) :: rest => if c then r else firstMatchingRule rest

/-! ## Configuration (`src/config.py`)

Only the fields the verified components read.  Each field is an
environment-loaded Python `int` (or enum), kept abstract here. -/

structure Config where
  snipe_threshold : Int
  max_price_per_item : Int
  total_budget : Int
  max_purchases_per_hour : Int
  cooldown_between_purchases : Int
deriving DecidableEq, Repr

/-! ## Purchase executor (`src/sniper/executor.py`) -/

/-- Purchase record (`PurchaseRecord` in `models.py`), reduced to the
fields the executor computes deterministically (the random UUID, the
wall-clock time and the descriptive strings are omitted). -/
structure PurchaseRecord where
  item_id : Int
  purchase_price : Int
  snipe_score : Int
  success : Bool
deriving DecidableEq, Repr

/-- Session-tracking state of a `PurchaseExecutor` instance
(`PurchaseExecutor.__init__`). -/
structure ExecutorSt where
  session_spent : Int
  purchase_times : List DTime
  last_purchase_time : Option DTime
  purchase_records : List PurchaseRecord
deriving DecidableEq, Repr

/-- Fresh executor session state. -/
def executorInit : ExecutorSt :=
  { session_spent := 0
    purchase_times := []
    last_purchase_time := none
    purchase_records := [] }

/-- Result of a purchase execution attempt (`ExecutionResult`), reduced
to the flag and outcome the claims are about. -/
structure ExecutionResult where
  success : Bool
  purchase_result : PurchaseResult
deriving DecidableEq, Repr

/-- The "one hour ago" instant the executor rate limit builds
field-wise: `datetime(now.year, now.month, now.day, now.hour - 1 if
now.hour > 0 else 23, now.minute, now.second)`.  Note the day is not
decremented when the hour wraps. -/
def executorOneHourAgo (now : DTime) : DTime :=
  { year := now.year
    month := now.month
    day := now.day
    hour := if now.hour > 0 then now.hour - 1 else 23
    minute := now.minute
    second := now.second
    micro := 0 }

/-- Hourly purchase limit check (`PurchaseExecutor._check_rate_limit`).
Returns the pruned timestamp list it stores back into
`self._purchase_times` together with the boolean verdict. -/
def PurchaseExecutor.check_rate_limit (cfg : Config) (times : List DTime)
    (now : DTime) : List DTime × Bool :=
  let one_hour_ago := executorOneHourAgo now
  let recent := times.filter (fun t => one_hour_ago.ltb t)
  (recent, decide ((recent.length : Int) < cfg.max_purchases_per_hour))

/-- Cooldown check (`PurchaseExecutor._check_cooldown`). -/
def PurchaseExecutor.check_cooldown (cfg : Config) (last : Option DTime)
    (now : DTime) : Bool :=
  match last with
  | none => true
  | some t =>
      decide (now.toRat - t.toRat ≥ (cfg.cooldown_between_purchases : ℚ))

/-- Output of one `PurchaseExecutor.execute` call: the returned
`ExecutionResult`, the updated session state, and whether the call
reached `roblox.purchase` (the market). -/
structure ExecuteOutput where
  result : ExecutionResult
  st : ExecutorSt
  market_called : Bool
deriving DecidableEq, Repr

/-- Purchase execution with the full safety-check sequence
(`PurchaseExecutor.execute`).  The listings a re-fetch of
`get_resellers` would return and the response a `purchase` call would
produce are explicit oracle arguments. -/
def PurchaseExecutor.execute (cfg : Config) (st : ExecutorSt) (item : Item)
    (listing : Listing) (score_result : ScoreResult)
    (current_listings : List Listing) (response : PurchaseResponse)
    (now : DTime) : ExecuteOutput :=
  if listing.price > cfg.max_price_per_item then
    { result := { success := false, purchase_result := .UNKNOWN_ERROR }
      st := st
      market_called := false }
  else if st.session_spent + listing.price > cfg.total_budget then
    { result := { success := false, purchase_result := .INSUFFICIENT_FUNDS }
      st := st
      market_called := false }
  else
    let rl := PurchaseExecutor.check_rate_limit cfg st.purchase_times now
    let st1 := { st with purchase_times := rl.1 }
    if ¬ rl.2 then
      { result := { success := false, purchase_result := .RATE_LIMITED }
        st := st1
        market_called := false }
    else if ¬ PurchaseExecutor.check_cooldown cfg st1.last_purchase_time now then
      { result := { success := false, purchase_result := .RATE_LIMITED }
        st := st1
        market_called := false }
    else
      let listing_exists := current_listings.any fun l =>
        decide (l.product_id = listing.product_id) &&
          decide (l.price = listing.price)
      if ¬ listing_exists then
        { result := { success := false, purchase_result := .LISTING_GONE }
          st := st1
          market_called := false }
      else
        let record : PurchaseRecord :=
          { item_id := item.item_id
            purchase_price := listing.price
            snipe_score := score_result.score
            success := decide (response.result = .SUCCESS) }
        if response.result = .SUCCESS then
          { result := { success := true, purchase_result := .SUCCESS }
            st := { st1 with
              session_spent := st1.session_spent + listing.price
              purchase_times := st1.purchase_times ++ [now]
              last_purchase_time := some now
              purchase_records := st1.purchase_records ++ [record] }
            market_called := true }
        else
          { result := { success := false, purchase_result := response.result }
            st := { st1 with
              purchase_records := st1.purchase_records ++ [record] }
            market_called := true }

/-! ## Sniper engine (`src/sniper/engine.py`) -/

/-- Statistics for the sniper engine (`EngineStats`). -/
structure EngineStats where
  started_at : Option DTime := none
  items_scanned : Int := 0
  items_filtered : Int := 0
  items_scored : Int := 0
  opportunities_found : Int := 0
  purchases_attempted : Int := 0
  purchases_successful : Int := 0
  total_spent : Int := 0
  last_scan_at : Option DTime := none
  errors : Int := 0
deriving DecidableEq, Repr

/-- Detected snipe opportunity (`Opportunity`); the `detected_at`
wall-clock default is omitted. -/
structure Opportunity where
  score_result : ScoreResult
  listing : Listing
deriving DecidableEq, Repr

/-- Item of an opportunity (`Opportunity.item`). -/
def Opportunity.item (o : Opportunity) : Item :=
  o.score_result.item

/-- Score of an opportunity (`Opportunity.score`). -/
def Opportunity.score (o : Opportunity) : Int :=
  o.score_result.score

/-- Tier of an opportunity (`Opportunity.tier`). -/
def Opportunity.tier (o : Opportunity) : ScoreTier :=
  o.score_result.tier

/-- Deduplication key of an opportunity: the `(item_id, price)` pair the
scan loop records in `_alerted_items` when it constructs the
opportunity. -/
def Opportunity.key (o : Opportunity) : Int × Int :=
  (o.score_result.item.item_id, o.listing.price)

/-- Mutable state of a `SniperEngine` instance (`SniperEngine.__init__`):
lifecycle state, statistics, the `_alerted_items` dedup set (modelled as
a list of keys), the purchase mode, and the engine's own budget/rate
tracking counters. -/
structure SniperEngine where
  state : EngineState
  stats : EngineStats
  alerted_items : List (Int × Int)
  purchase_mode : PurchaseMode
  session_spent : Int
  purchases_this_hour : List DTime
deriving DecidableEq, Repr

/-- Freshly constructed engine (`SniperEngine.__init__`): stopped, zero
stats, empty dedup set, zero session counters. -/
def SniperEngine.init (mode : PurchaseMode) : SniperEngine :=
  { state := .STOPPED
    stats := {}
    alerted_items := []
    purchase_mode := mode
    session_spent := 0
    purchases_this_hour := [] }

/-- Engine start (`SniperEngine.start`): a no-op while running or
starting, otherwise replaces the stats with a fresh record stamped with
the current time and moves (through STARTING) to RUNNING. -/
def SniperEngine.start (e : SniperEngine) (now : DTime) : SniperEngine :=
  if e.state = .RUNNING ∨ e.state = .STARTING then e
  else { e with state := .RUNNING, stats := { started_at := some now } }

/-- Engine stop (`SniperEngine.stop`): a no-op when already stopped,
otherwise moves (through STOPPING) to STOPPED.  Stats, dedup set and
session counters are untouched. -/
def SniperEngine.stop (e : SniperEngine) : SniperEngine :=
  if e.state = .STOPPED then e
  else { e with state := .STOPPED }

/-- Engine pause (`SniperEngine.pause`). -/
def SniperEngine.pause (e : SniperEngine) : SniperEngine :=
  if e.state = .RUNNING then { e with state := .PAUSED } else e

/-- Engine resume (`SniperEngine.resume`). -/
def SniperEngine.resume (e : SniperEngine) : SniperEngine :=
  if e.state = .PAUSED then { e with state := .RUNNING } else e

/-- Budget check of the engine purchase paths
(`SniperEngine._check_budget`). -/
def SniperEngine.check_budget (cfg : Config) (e : SniperEngine)
    (price : Int) : Bool :=
  if price > cfg.max_price_per_item then false
  else if e.session_spent + price > cfg.total_budget then false
  else true

/-- The "hour ago" instant the engine rate limit builds with
`now.replace(hour=now.hour - 1 if now.hour > 0 else 23)`: all other
fields, microseconds included, are kept, and the day is not decremented
when the hour wraps. -/
def engineHourAgo (now : DTime) : DTime :=
  { now with hour := if now.hour > 0 then now.hour - 1 else 23 }

/-- Purchase rate check of the engine paths
(`SniperEngine._check_purchase_rate`).  Returns the engine with the
pruned `_purchases_this_hour` list stored back, and the verdict. -/
def SniperEngine.check_purchase_rate (cfg : Config) (e : SniperEngine)
    (now : DTime) : SniperEngine × Bool :=
  let hour_ago := engineHourAgo now
  let kept := e.purchases_this_hour.filter (fun t => hour_ago.ltb t)
  ({ e with purchases_this_hour := kept },
    decide ((kept.length : Int) < cfg.max_purchases_per_hour))

/-- Output of an engine-side purchase attempt: the updated engine and
whether the call reached `roblox.purchase` (the market). -/
structure EnginePurchaseOutput where
  engine : SniperEngine
  market_called : Bool
deriving DecidableEq, Repr

/-- Automatic purchase path (`SniperEngine._execute_purchase`): budget
check, rate check, then a direct `roblox.purchase` call; session
counters update only on a SUCCESS response. -/
def SniperEngine.execute_purchase (cfg : Config) (e : SniperEngine)
    (opportunity : Opportunity) (now : DTime) (response : PurchaseResponse) :
    EnginePurchaseOutput :=
  if ¬ SniperEngine.check_budget cfg e opportunity.listing.price then
    { engine := e, market_called := false }
  else
    let rc := SniperEngine.check_purchase_rate cfg e now
    if ¬ rc.2 then
      { engine := rc.1, market_called := false }
    else
      let e1 := { rc.1 with stats :=
        { rc.1.stats with purchases_attempted := rc.1.stats.purchases_attempted + 1 } }
      if response.result = .SUCCESS then
        { engine := { e1 with
            stats := { e1.stats with
              purchases_successful := e1.stats.purchases_successful + 1
              total_spent := e1.stats.total_spent + opportunity.listing.price }
            session_spent := e1.session_spent + opportunity.listing.price
            purchases_this_hour := e1.purchases_this_hour ++ [now] }
          market_called := true }
      else
        { engine := e1, market_called := true }

/-- Output of `SniperEngine.manual_purchase`: the updated engine, the
returned `PurchaseResult`, and whether the call reached the market. -/
structure ManualPurchaseOutput where
  engine : SniperEngine
  result : PurchaseResult
  market_called : Bool
deriving DecidableEq, Repr

/-- Manual (human-confirmed) purchase path
(`SniperEngine.manual_purchase`): the same budget and rate checks as the
automatic path against the same engine counters, then a direct
`roblox.purchase` call. -/
def SniperEngine.manual_purchase (cfg : Config) (e : SniperEngine)
    (opportunity : Opportunity) (now : DTime) (response : PurchaseResponse) :
    ManualPurchaseOutput :=
  if ¬ SniperEngine.check_budget cfg e opportunity.listing.price then
    { engine := e, result := .INSUFFICIENT_FUNDS, market_called := false }
  else
    let rc := SniperEngine.check_purchase_rate cfg e now
    if ¬ rc.2 then
      { engine := rc.1, result := .RATE_LIMITED, market_called := false }
    else
      let e1 := { rc.1 with stats :=
        { rc.1.stats with purchases_attempted := rc.1.stats.purchases_attempted + 1 } }
      if response.result = .SUCCESS then
        { engine := { e1 with
            stats := { e1.stats with
              purchases_successful := e1.stats.purchases_successful + 1
              total_spent := e1.stats.total_spent + opportunity.listing.price }
            session_spent := e1.session_spent + opportunity.listing.price
            purchases_this_hour := e1.purchases_this_hour ++ [now] }
          result := response.result
          market_called := true }
      else
        { engine := e1, result := response.result, market_called := true }

/-- Auto-buy decision of `SniperEngine._handle_opportunity`: `should_buy`
starts false and is set by the purchase-mode branch. -/
def SniperEngine.handle_opportunity_should_buy (cfg : Config)
    (e : SniperEngine) (opportunity : Opportunity) : Bool :=
  if e.purchase_mode = .FULL_AUTO then
    decide (opportunity.score ≥ cfg.snipe_threshold)
  else if e.purchase_mode = .HYBRID then
    decide (opportunity.tier = .EXCELLENT)
  else if e.purchase_mode = .ALERT_CONFIRM then
    false
  else
    false

/-- Accumulator of the scan cycle's listing loop
(`SniperEngine._scan_for_opportunities`): the engine (whose
`_alerted_items` and stats the loop mutates) and the `opportunities`
list collected so far. -/
structure ScanAcc where
  engine : SniperEngine
  opportunities : List Opportunity
deriving DecidableEq, Repr

/-- Body of the per-listing loop of
`SniperEngine._scan_for_opportunities`: dedup lookup, pre-filter, scorer,
then opportunity construction with dedup-key recording. -/
def SniperEngine.scan_listing (pf : PreFilter) (sc : SnipeScorer)
    (now : DTime) (acc : ScanAcc) (item : Item) (listing : Listing) :
    ScanAcc :=
  let e := acc.engine
  let alert_key := (item.item_id, listing.price)
  if alert_key ∈ e.alerted_items then acc
  else
    let filter_result := pf.filter now item listing.price
    let e1 := { e with stats :=
      { e.stats with items_filtered := e.stats.items_filtered + 1 } }
    if ¬ filter_result.passed then { acc with engine := e1 }
    else
      let score_result := sc.score item listing.price
      let e2 := { e1 with stats :=
        { e1.stats with items_scored := e1.stats.items_scored + 1 } }
      if score_result.tier = .REJECT then { acc with engine := e2 }
      else
        let opportunity : Opportunity :=
          { score_result := score_result, listing := listing }
        { engine := { e2 with
            alerted_items := alert_key :: e2.alerted_items
            stats := { e2.stats with
              opportunities_found := e2.stats.opportunities_found + 1 } }
          opportunities := acc.opportunities ++ [opportunity] }

/-- Listing events processed by the scan loop across any number of scan
cycles of one engine lifetime, each with the wall-clock instant at which
the loop body ran. -/
structure ScanEvent where
  now : DTime
  item : Item
  listing : Listing
deriving DecidableEq, Repr

/-- Fold of the scan-loop body over a sequence of listing events. -/
def SniperEngine.run_scan (pf : PreFilter) (sc : SnipeScorer)
    (acc : ScanAcc) (events : List ScanEvent) : ScanAcc :=
  events.foldl (fun a ev => SniperEngine.scan_listing pf sc ev.now a ev.item ev.listing) acc

/-! ## Purchase-attempt traces

A session interleaves automatic purchases dispatched by the scheduler
with manually confirmed purchases; both act on the same engine instance.
Each event carries the oracle data of its network calls. -/

/-- One purchase attempt in an engine session: either the automatic path
or the manual path, with the wall clock and market response. -/
inductive PurchaseEvent where
  | auto (opportunity : Opportunity) (now : DTime) (response : PurchaseResponse)
  | manual (opportunity : Opportunity) (now : DTime) (response : PurchaseResponse)
deriving DecidableEq, Repr

/-- Apply one purchase event to an engine.  The returned list holds the
price of the purchase when it was dispatched to the market and the
response was SUCCESS (the prices of successful purchases). -/
def purchaseStep (cfg : Config) (e : SniperEngine) :
    PurchaseEvent → SniperEngine × List Int
  | .auto opportunity now response =>
      let out := SniperEngine.execute_purchase cfg e opportunity now response
      (out.engine,
        if out.market_called ∧ response.result = .SUCCESS then
          [opportunity.listing.price] else [])
  | .manual opportunity now response =>
      let out := SniperEngine.manual_purchase cfg e opportunity now response
      (out.engine,
        if out.market_called ∧ response.result = .SUCCESS then
          [opportunity.listing.price] else [])

/-- Run a sequence of purchase events against an engine, collecting the
prices of the successful purchases in order. -/
def runPurchases (cfg : Config) (e : SniperEngine) :
    List PurchaseEvent → SniperEngine × List Int
  | [] => (e, [])
  | ev :: rest =>
      let step := purchaseStep cfg e ev
      let tail := runPurchases cfg step.1 rest
      (tail.1, step.2 ++ tail.2)

/-- One `PurchaseExecutor.execute` call in an executor session, with the
oracle data of its network calls. -/
structure ExecEvent where
  item : Item
  listing : Listing
  score_result : ScoreResult
  current_listings : List Listing
  response : PurchaseResponse
  now : DTime
deriving DecidableEq, Repr

/-- Run a sequence of `execute` calls against an executor session,
collecting the prices of the successful purchases in order. -/
def runExecutor (cfg : Config) (st : ExecutorSt) :
    List ExecEvent → ExecutorSt × List Int
  | [] => (st, [])
  | ev :: rest =>
      let out := PurchaseExecutor.execute cfg st ev.item ev.listing
        ev.score_result ev.current_listings ev.response ev.now
      let tail := runExecutor cfg out.st rest
      (tail.1,
        (if out.result.success then [ev.listing.price] else []) ++ tail.2)

/-- Number of opportunities in a list whose dedup key is `k`. -/
def keyCount (l : List Opportunity) (k : Int × Int) : Nat :=
  (l.filter fun o => decide (o.key = k)).length

/-! ## Concrete fixtures

Concrete configurations, items, listings and instants used to
instantiate the universally quantified theorems below and to evaluate
the code at specific inputs. -/

/-- Scenario-A item of §8 of the specification: value 10000, RAP 10000,
HIGH demand, STABLE trend, 30 sales, classic, not rare, not hyped. -/
def itemScenarioA : Item :=
  { item_id := 1
    rap := 10000
    value := 10000
    demand := .HIGH
    trend := .STABLE
    projected := false
    hyped := false
    rare := false
    copies_remaining := none
    recent_sales_30d := some 30
    is_ugc := false
    created_at := none }

/-- The Scenario-A item marked projected. -/
def itemProjected : Item :=
  { itemScenarioA with projected := true }

/-- Scorer with no active strategies and UGC included. -/
def scorerDefault : SnipeScorer :=
  { strategies := [], ugc_mode := .INCLUDE }

/-- Pre-filter with the constructor-default thresholds of
`PreFilter.__init__`. -/
def preFilterDefault : PreFilter :=
  { ugc_mode := .INCLUDE
    min_discount := 20
    max_price := 50000
    min_copies := 5
    max_days_no_sales := 90
    min_ugc_age_days := 30 }

/-- Configuration used by the concrete instances: generous budgets, 10
purchases per hour, 30-second cooldown, threshold 70 (the documented
defaults of `config.py` scaled down where a small number is clearer). -/
def cfgW : Config :=
  { snipe_threshold := 70
    max_price_per_item := 50000
    total_budget := 500000
    max_purchases_per_hour := 10
    cooldown_between_purchases := 30 }

/-- Listing fixture: price 100. -/
def listingW : Listing :=
  { item_id := 1, seller_id := 2, price := 100, product_id := 3, user_asset_id := 4 }

/-- Listing fixture: price 200 (exceeds small per-item budgets below). -/
def listingBig : Listing :=
  { item_id := 1, seller_id := 2, price := 200, product_id := 3, user_asset_id := 4 }

/-- Score-result fixture carried by opportunity fixtures. -/
def scoreResultW : ScoreResult :=
  { item := itemScenarioA
    listing_price := 100
    score := 90
    tier := .EXCELLENT
    breakdown := {}
    discount_percent := 99 }

/-- Opportunity fixture with score 90 / tier EXCELLENT at price 100. -/
def oppW : Opportunity :=
  { score_result := scoreResultW, listing := listingW }

/-- A successful market response. -/
def respSuccess : PurchaseResponse :=
  { result := .SUCCESS, message := "" }

/-- Instant fixture: 2024-01-02 10:00:00 UTC. -/
def now1W : DTime :=
  { year := 2024, month := 1, day := 2, hour := 10, minute := 0, second := 0, micro := 0 }

/-- Instant fixture: one second after `now1W`. -/
def now2W : DTime :=
  { year := 2024, month := 1, day := 2, hour := 10, minute := 0, second := 1, micro := 0 }

/-- Instant fixture just after midnight: 2024-01-02 00:30:00 UTC. -/
def nowMidnight : DTime :=
  { year := 2024, month := 1, day := 2, hour := 0, minute := 30, second := 0, micro := 0 }

/-- A purchase recorded twenty minutes before `nowMidnight`:
2024-01-02 00:10:00 UTC. -/
def tMidnightPurchase : DTime :=
  { year := 2024, month := 1, day := 2, hour := 0, minute := 10, second := 0, micro := 0 }

/-- Configuration allowing at most one purchase per hour. -/
def cfgOnePerHour : Config :=
  { snipe_threshold := 70
    max_price_per_item := 50000
    total_budget := 500000
    max_purchases_per_hour := 1
    cooldown_between_purchases := 30 }

/-- Configuration whose per-item maximum (100) exceeds its session
budget gate at price 200 and whose total budget is 50. -/
def cfgTiny : Config :=
  { snipe_threshold := 70
    max_price_per_item := 100
    total_budget := 50
    max_purchases_per_hour := 10
    cooldown_between_purchases := 30 }

/-- Engine fixture: freshly constructed in FULL_AUTO mode. -/
def engineW : SniperEngine :=
  SniperEngine.init .FULL_AUTO

/-- Engine fixture with one recorded purchase timestamp shortly after
midnight. -/
def engineMidnight : SniperEngine :=
  { SniperEngine.init .FULL_AUTO with purchases_this_hour := [tMidnightPurchase] }

/-- Engine fixture whose dedup set already records the key (1, 100). -/
def engineAlerted : SniperEngine :=
  { SniperEngine.init .FULL_AUTO with alerted_items := [(1, 100)] }

/-! ## Theorems -/

/-- Claim C5: for every item and every listing price, `score` returns a
score in [0, 100], and the returned tier is exactly the §4.2 boundary
function of that returned score: ≥ 85 EXCELLENT, ≥ 70 GOOD, ≥ 50 RISKY,
otherwise REJECT. -/
theorem scorer_score_in_range_and_tier_pure (sc : SnipeScorer) (item : Item)
    (price : Int) :
    0 ≤ (sc.score item price).score ∧ (sc.score item price).score ≤ 100 ∧
    (sc.score item price).tier =
      (if (sc.score item price).score ≥ 85 then ScoreTier.EXCELLENT
       else if (sc.score item price).score ≥ 70 then ScoreTier.GOOD
       else if (sc.score item price).score ≥ 50 then ScoreTier.RISKY
       else ScoreTier.REJECT) := by
  unfold SnipeScorer.score
  by_cases h : discountPercent item.value price < 20
  · simp only [if_pos h]
    refine ⟨le_rfl, by norm_num, ?_⟩
    norm_num [ScoreTier.from_score]
  · simp only [if_neg h]
    refine ⟨le_max_left 0 _, max_le (by norm_num) (min_le_left _ _), rfl⟩

/-- Claim C6: whenever the computed discount percent (0 when the value
is non-positive, else `(1 - price/value) * 100`) is strictly below 20,
`score` short-circuits to score 0 and tier REJECT, whatever the other
item attributes, active strategies or configured pre-filter minimum. -/
theorem scorer_discount_floor_short_circuit (sc : SnipeScorer) (item : Item)
    (price : Int) (h : discountPercent item.value price < 20) :
    (sc.score item price).score = 0 ∧
    (sc.score item price).tier = ScoreTier.REJECT := by
  unfold SnipeScorer.score
  rw [if_pos h]
  exact ⟨rfl, rfl⟩

/-- Witness for C6: the Scenario-B input (value 10000, price 9000, a 10%
discount) is rejected with score 0 by the short circuit. -/
theorem scorer_discount_floor_short_circuit_witness :
    discountPercent itemScenarioA.value 9000 < 20 ∧
    ((scorerDefault.score itemScenarioA 9000).score = 0 ∧
      (scorerDefault.score itemScenarioA 9000).tier = ScoreTier.REJECT) :=
  ⟨by norm_num [discountPercent, itemScenarioA],
    scorer_discount_floor_short_circuit scorerDefault itemScenarioA 9000
      (by norm_num [discountPercent, itemScenarioA])⟩

set_option maxHeartbeats 2000000 in
/-- Helper: the reason returned by `PreFilter.filter` is the reason of
the first matching rule of the ordered §4.1 rule list. -/
theorem preFilter_reason_eq (pf : PreFilter) (now : DTime) (item : Item)
    (price : Int) :
    (pf.filter now item price).reason =
      firstMatchingRule (preFilterRules pf now item price) := by
  unfold PreFilter.filter preFilterRules
  simp only [apply_ite FilterResult.reason]
  split_ifs <;>
    simp_all only [firstMatchingRule, decide_eq_true_eq, Bool.and_eq_true,
      Bool.not_eq_true, if_true, if_false, ite_true, ite_false,
      not_true, not_false_iff, decide_eq_false_iff_not] <;>
    simp_all

set_option maxHeartbeats 2000000 in
/-- Helper: `PreFilter.filter` passes exactly when no rule of the
ordered §4.1 rule list matches. -/
theorem preFilter_passed_eq (pf : PreFilter) (now : DTime) (item : Item)
    (price : Int) :
    (pf.filter now item price).passed =
      (firstMatchingRule (preFilterRules pf now item price) ==
        RejectReason.PASSED) := by
  unfold PreFilter.filter preFilterRules
  simp only [apply_ite FilterResult.passed]
  split_ifs <;>
    simp_all only [firstMatchingRule, decide_eq_true_eq, Bool.and_eq_true,
      Bool.not_eq_true, if_true, if_false, ite_true, ite_false,
      not_true, not_false_iff, decide_eq_false_iff_not] <;>
    simp_all

/-- Claim C7: `PreFilter.filter` returns the reason of the first
matching rule of the §4.1 rules evaluated in the fixed listed order
(rules after the first match cannot influence the result), it passes
exactly when its reason is PASSED, and in particular every projected
item is rejected with reason PROJECTED whatever the other rules would
say. -/
theorem preFilter_first_matching_rule_wins (pf : PreFilter) (now : DTime)
    (item : Item) (price : Int) :
    ((pf.filter now item price).reason =
        firstMatchingRule (preFilterRules pf now item price) ∧
      ((pf.filter now item price).passed = true ↔
        (pf.filter now item price).reason = RejectReason.PASSED)) ∧
    (item.projected = true →
      (pf.filter now item price).passed = false ∧
        (pf.filter now item price).reason = RejectReason.PROJECTED) := by
  have hr := preFilter_reason_eq pf now item price
  have hp := preFilter_passed_eq pf now item price
  refine ⟨⟨hr, ?_⟩, ?_⟩
  · rw [hp, hr]
    simp [beq_iff_eq]
  · intro h
    have hfmr : firstMatchingRule (preFilterRules pf now item price) =
        RejectReason.PROJECTED := by
      simp [preFilterRules, firstMatchingRule, h]
    rw [hp, hr, hfmr]
    simp

/-- Witness for C7: the projected variant of the Scenario-A item (which
would pass every other rule) is rejected with reason PROJECTED. -/
theorem preFilter_first_matching_rule_wins_witness :
    (preFilterDefault.filter now1W itemProjected 5000).passed = false ∧
    (preFilterDefault.filter now1W itemProjected 5000).reason =
      RejectReason.PROJECTED :=
  (preFilter_first_matching_rule_wins preFilterDefault now1W itemProjected
    5000).2 rfl

/-- Claim C8: the scheduler's auto-buy decision is exactly: never in
ALERT_CONFIRM mode; if and only if the score reaches the configured
threshold in FULL_AUTO mode; if and only if the tier is EXCELLENT in
HYBRID mode. -/
theorem handle_opportunity_auto_buy_decision (cfg : Config)
    (e : SniperEngine) (o : Opportunity) :
    (e.purchase_mode = .ALERT_CONFIRM →
      SniperEngine.handle_opportunity_should_buy cfg e o = false) ∧
    (e.purchase_mode = .FULL_AUTO →
      (SniperEngine.handle_opportunity_should_buy cfg e o = true ↔
        o.score ≥ cfg.snipe_threshold)) ∧
    (e.purchase_mode = .HYBRID →
      (SniperEngine.handle_opportunity_should_buy cfg e o = true ↔
        o.tier = ScoreTier.EXCELLENT)) := by
  refine ⟨?_, ?_, ?_⟩ <;> intro h <;>
    simp [SniperEngine.handle_opportunity_should_buy, h]

/-- Witness for C8: the three modes instantiated on the fixture
opportunity. -/
theorem handle_opportunity_auto_buy_decision_witness :
    SniperEngine.handle_opportunity_should_buy cfgW
      (SniperEngine.init .ALERT_CONFIRM) oppW = false ∧
    (SniperEngine.handle_opportunity_should_buy cfgW
      (SniperEngine.init .FULL_AUTO) oppW = true ↔
        oppW.score ≥ cfgW.snipe_threshold) ∧
    (SniperEngine.handle_opportunity_should_buy cfgW
      (SniperEngine.init .HYBRID) oppW = true ↔
        oppW.tier = ScoreTier.EXCELLENT) :=
  ⟨(handle_opportunity_auto_buy_decision cfgW (SniperEngine.init .ALERT_CONFIRM) oppW).1 rfl,
   (handle_opportunity_auto_buy_decision cfgW (SniperEngine.init .FULL_AUTO) oppW).2.1 rfl,
   (handle_opportunity_auto_buy_decision cfgW (SniperEngine.init .HYBRID) oppW).2.2 rfl⟩

/-- Helper: the automatic engine path reaches the market exactly when
its budget check and its rate check pass — no other gate. -/
theorem execute_purchase_market_gates (cfg : Config) (e : SniperEngine)
    (o : Opportunity) (now : DTime) (resp : PurchaseResponse) :
    (SniperEngine.execute_purchase cfg e o now resp).market_called =
      (SniperEngine.check_budget cfg e o.listing.price &&
        (SniperEngine.check_purchase_rate cfg e now).2) := by
  unfold SniperEngine.execute_purchase
  simp only [apply_ite EnginePurchaseOutput.market_called]
  cases h1 : SniperEngine.check_budget cfg e o.listing.price <;>
    cases h2 : (SniperEngine.check_purchase_rate cfg e now).2 <;>
    simp [h1, h2] <;>
    split_ifs <;> rfl

/-- Helper: the manual engine path reaches the market exactly when the
same two engine checks pass — no other gate. -/
theorem manual_purchase_market_gates (cfg : Config) (e : SniperEngine)
    (o : Opportunity) (now : DTime) (resp : PurchaseResponse) :
    (SniperEngine.manual_purchase cfg e o now resp).market_called =
      (SniperEngine.check_budget cfg e o.listing.price &&
        (SniperEngine.check_purchase_rate cfg e now).2) := by
  unfold SniperEngine.manual_purchase
  simp only [apply_ite ManualPurchaseOutput.market_called]
  cases h1 : SniperEngine.check_budget cfg e o.listing.price <;>
    cases h2 : (SniperEngine.check_purchase_rate cfg e now).2 <;>
    simp [h1, h2] <;>
    split_ifs <;> rfl

/-- Helper: `PurchaseExecutor.execute` reaches the market exactly when
all five §4.4 gates pass: per-item budget, session budget, hourly rate,
cooldown and listing re-verification. -/
theorem executor_market_five_gates (cfg : Config) (st : ExecutorSt)
    (item : Item) (listing : Listing) (sr : ScoreResult)
    (cls : List Listing) (resp : PurchaseResponse) (now : DTime) :
    (PurchaseExecutor.execute cfg st item listing sr cls resp now).market_called =
      (decide (listing.price ≤ cfg.max_price_per_item) &&
        decide (st.session_spent + listing.price ≤ cfg.total_budget) &&
        (PurchaseExecutor.check_rate_limit cfg st.purchase_times now).2 &&
        PurchaseExecutor.check_cooldown cfg st.last_purchase_time now &&
        cls.any (fun l => decide (l.product_id = listing.product_id) &&
          decide (l.price = listing.price))) := by
  unfold PurchaseExecutor.execute
  simp only [apply_ite ExecuteOutput.market_called]
  split_ifs with h1 h2 h3 h4 h5 h6 <;>
    simp_all [not_lt.mp]

/-- Counterexample for C2: a market call of the automatic engine path
that is not preceded by the cooldown gate (and by no staleness
re-verification): one second after a successful purchase, with a
30-second configured cooldown, the engine calls the market again. -/
theorem engine_purchase_skips_cooldown_gate :
    (SniperEngine.execute_purchase cfgW engineW oppW now1W respSuccess).market_called = true ∧
    (SniperEngine.execute_purchase cfgW
        (SniperEngine.execute_purchase cfgW engineW oppW now1W respSuccess).engine
        oppW now2W respSuccess).market_called = true ∧
    PurchaseExecutor.check_cooldown cfgW (some now1W) now2W = false ∧
    now2W.toRat - now1W.toRat < (cfgW.cooldown_between_purchases : ℚ) := by
  norm_num [SniperEngine.execute_purchase, SniperEngine.check_budget,
    SniperEngine.check_purchase_rate, engineHourAgo, DTime.ltb, DTime.toRat,
    DTime.toSec, daysFromCivil, PurchaseExecutor.check_cooldown,
    cfgW, engineW, SniperEngine.init, oppW, scoreResultW, listingW,
    respSuccess, now1W, now2W, List.filter]

/-- Claim C2 (amended): the engine's automatic and manual purchase paths
call the market directly, gated exactly by the engine's own per-item and
session budget check and its hourly rate check — not through
`PurchaseExecutor` and without the cooldown or staleness gates — while
`PurchaseExecutor.execute` (which the engine does not invoke) is gated
by all five §4.4 checks against its own session state. -/
theorem purchase_paths_market_gate_characterisation :
    (∀ (cfg : Config) (e : SniperEngine) (o : Opportunity) (now : DTime)
        (resp : PurchaseResponse),
      (SniperEngine.execute_purchase cfg e o now resp).market_called =
        (SniperEngine.check_budget cfg e o.listing.price &&
          (SniperEngine.check_purchase_rate cfg e now).2)) ∧
    (∀ (cfg : Config) (e : SniperEngine) (o : Opportunity) (now : DTime)
        (resp : PurchaseResponse),
      (SniperEngine.manual_purchase cfg e o now resp).market_called =
        (SniperEngine.check_budget cfg e o.listing.price &&
          (SniperEngine.check_purchase_rate cfg e now).2)) ∧
    (∀ (cfg : Config) (st : ExecutorSt) (item : Item) (listing : Listing)
        (sr : ScoreResult) (cls : List Listing) (resp : PurchaseResponse)
        (now : DTime),
      (PurchaseExecutor.execute cfg st item listing sr cls resp now).market_called =
        (decide (listing.price ≤ cfg.max_price_per_item) &&
          decide (st.session_spent + listing.price ≤ cfg.total_budget) &&
          (PurchaseExecutor.check_rate_limit cfg st.purchase_times now).2 &&
          PurchaseExecutor.check_cooldown cfg st.last_purchase_time now &&
          cls.any (fun l => decide (l.product_id = listing.product_id) &&
            decide (l.price = listing.price)))) :=
  ⟨execute_purchase_market_gates, manual_purchase_market_gates,
    executor_market_five_gates⟩

/-- Counterexample for C3: when the listing price also exceeds the
per-item maximum, the per-item gate fires first, so a call with
session-spent + price over the total budget returns UNKNOWN_ERROR, not
the session-budget outcome INSUFFICIENT_FUNDS. -/
theorem executor_budget_outcome_counterexample :
    executorInit.session_spent + listingBig.price > cfgTiny.total_budget ∧
    (PurchaseExecutor.execute cfgTiny executorInit itemScenarioA listingBig
        scoreResultW [] respSuccess now1W).result.purchase_result =
      PurchaseResult.UNKNOWN_ERROR ∧
    PurchaseResult.UNKNOWN_ERROR ≠ PurchaseResult.INSUFFICIENT_FUNDS := by
  refine ⟨by norm_num [executorInit, listingBig, cfgTiny], ?_, by decide⟩
  norm_num [PurchaseExecutor.execute, executorInit, listingBig, cfgTiny]

/-- Claim C3 (amended): whenever session-spent + price exceeds the total
session budget and the price is within the per-item maximum (so the
per-item gate does not fire first), `PurchaseExecutor.execute` returns
the failed result with the session-budget outcome INSUFFICIENT_FUNDS,
never reaches the market, and leaves the session state unchanged. -/
theorem executor_session_budget_gate (cfg : Config) (st : ExecutorSt)
    (item : Item) (listing : Listing) (sr : ScoreResult)
    (cls : List Listing) (resp : PurchaseResponse) (now : DTime)
    (hmax : listing.price ≤ cfg.max_price_per_item)
    (hbud : st.session_spent + listing.price > cfg.total_budget) :
    (PurchaseExecutor.execute cfg st item listing sr cls resp now).result =
      { success := false, purchase_result := PurchaseResult.INSUFFICIENT_FUNDS } ∧
    (PurchaseExecutor.execute cfg st item listing sr cls resp now).market_called = false ∧
    (PurchaseExecutor.execute cfg st item listing sr cls resp now).st = st := by
  unfold PurchaseExecutor.execute
  rw [if_neg (not_lt.mpr hmax), if_pos hbud]
  exact ⟨rfl, rfl, rfl⟩

/-- Witness for C3 (amended): price 100 with per-item maximum 100 and
total budget 50 yields INSUFFICIENT_FUNDS with no market call and an
unchanged session. -/
theorem executor_session_budget_gate_witness :
    listingW.price ≤ cfgTiny.max_price_per_item ∧
    executorInit.session_spent + listingW.price > cfgTiny.total_budget ∧
    ((PurchaseExecutor.execute cfgTiny executorInit itemScenarioA listingW
        scoreResultW [] respSuccess now1W).result =
      { success := false, purchase_result := PurchaseResult.INSUFFICIENT_FUNDS } ∧
     (PurchaseExecutor.execute cfgTiny executorInit itemScenarioA listingW
        scoreResultW [] respSuccess now1W).market_called = false ∧
     (PurchaseExecutor.execute cfgTiny executorInit itemScenarioA listingW
        scoreResultW [] respSuccess now1W).st = executorInit) :=
  ⟨by norm_num [listingW, cfgTiny],
   by norm_num [executorInit, listingW, cfgTiny],
   executor_session_budget_gate cfgTiny executorInit itemScenarioA listingW
     scoreResultW [] respSuccess now1W (by norm_num [listingW, cfgTiny])
     (by norm_num [executorInit, listingW, cfgTiny])⟩

/-- Helper: one engine purchase event advances the engine's session
spend by exactly the logged successful price and keeps the spend within
the total budget. -/
theorem purchaseStep_spent (cfg : Config) (e : SniperEngine) (ev : PurchaseEvent) :
    (purchaseStep cfg e ev).1.session_spent =
      e.session_spent + (purchaseStep cfg e ev).2.sum ∧
    (e.session_spent ≤ cfg.total_budget →
      (purchaseStep cfg e ev).1.session_spent ≤ cfg.total_budget) := by
  cases ev <;>
    simp only [purchaseStep, SniperEngine.execute_purchase,
      SniperEngine.manual_purchase, SniperEngine.check_budget,
      SniperEngine.check_purchase_rate] <;>
    split_ifs <;> simp_all <;> omega

/-- Helper: over any engine purchase trace, the session spend advances
by the sum of the logged successful prices and never leaves the
budget. -/
theorem runPurchases_spent (cfg : Config) (evs : List PurchaseEvent) :
    ∀ e : SniperEngine,
      (runPurchases cfg e evs).1.session_spent =
        e.session_spent + (runPurchases cfg e evs).2.sum ∧
      (e.session_spent ≤ cfg.total_budget →
        (runPurchases cfg e evs).1.session_spent ≤ cfg.total_budget) := by
  induction evs with
  | nil => intro e; simp [runPurchases]
  | cons ev rest ih =>
      intro e
      have hstep := purchaseStep_spent cfg e ev
      have htail := ih (purchaseStep cfg e ev).1
      refine ⟨?_, ?_⟩
      · simp only [runPurchases, List.sum_append]
        omega
      · intro h
        simp only [runPurchases]
        exact htail.2 (hstep.2 h)

/-- Helper: one `execute` call advances the executor's session spend by
the listing price exactly on success, and success implies the budget
gate admitted the price. -/
theorem execute_spent (cfg : Config) (st : ExecutorSt) (item : Item)
    (listing : Listing) (sr : ScoreResult) (cls : List Listing)
    (resp : PurchaseResponse) (now : DTime) :
    (PurchaseExecutor.execute cfg st item listing sr cls resp now).st.session_spent =
      st.session_spent +
        (if (PurchaseExecutor.execute cfg st item listing sr cls resp now).result.success
          then listing.price else 0) ∧
    ((PurchaseExecutor.execute cfg st item listing sr cls resp now).result.success = true →
      st.session_spent + listing.price ≤ cfg.total_budget) := by
  unfold PurchaseExecutor.execute
  simp only [apply_ite ExecuteOutput.st, apply_ite ExecuteOutput.result,
    apply_ite ExecutionResult.success, apply_ite ExecutorSt.session_spent]
  split_ifs <;> simp_all <;> omega

/-- Helper: over any executor trace, the session spend advances by the
sum of the logged successful prices and never leaves the budget. -/
theorem runExecutor_spent (cfg : Config) (evs : List ExecEvent) :
    ∀ st : ExecutorSt,
      (runExecutor cfg st evs).1.session_spent =
        st.session_spent + (runExecutor cfg st evs).2.sum ∧
      (st.session_spent ≤ cfg.total_budget →
        (runExecutor cfg st evs).1.session_spent ≤ cfg.total_budget) := by
  induction evs with
  | nil => intro st; simp [runExecutor]
  | cons ev rest ih =>
      intro st
      have hstep := execute_spent cfg st ev.item ev.listing ev.score_result
        ev.current_listings ev.response ev.now
      have htail := ih (PurchaseExecutor.execute cfg st ev.item ev.listing
        ev.score_result ev.current_listings ev.response ev.now).st
      refine ⟨?_, ?_⟩
      · simp only [runExecutor, List.sum_append]
        split_ifs at * <;> simp_all <;> omega
      · intro h
        refine htail.2 ?_
        rcases hs : (PurchaseExecutor.execute cfg st ev.item ev.listing
          ev.score_result ev.current_listings ev.response ev.now).result.success with _ | _
        · have := hstep.1
          rw [hs] at this
          simp at this
          omega
        · have := hstep.1
          have hb := hstep.2 hs
          rw [hs] at this
          simp at this
          omega

/-- Claim C1: over every interleaving of automatic and manual purchase
attempts of one engine session, and over every sequence of
`PurchaseExecutor.execute` calls of one executor session, the sum of the
prices of the successful purchases never exceeds the configured total
session budget: each path checks session-spent + price against the
budget before the market call and adds the price only on success. -/
theorem session_spend_never_exceeds_budget (cfg : Config)
    (mode : PurchaseMode) (h : 0 ≤ cfg.total_budget)
    (evs : List PurchaseEvent) (exevs : List ExecEvent) :
    (runPurchases cfg (SniperEngine.init mode) evs).2.sum ≤ cfg.total_budget ∧
    (runExecutor cfg executorInit exevs).2.sum ≤ cfg.total_budget := by
  have h1 := runPurchases_spent cfg evs (SniperEngine.init mode)
  have h2 := runExecutor_spent cfg exevs executorInit
  constructor
  · have hz : (SniperEngine.init mode).session_spent = 0 := rfl
    have hb := h1.2 (by rw [hz]; exact h)
    have heq := h1.1
    rw [hz] at heq
    omega
  · have hz : executorInit.session_spent = 0 := rfl
    have hb := h2.2 (by rw [hz]; exact h)
    have heq := h2.1
    rw [hz] at heq
    omega

/-- Witness for C1: a one-event engine trace and a one-event executor
trace under the fixture configuration. -/
theorem session_spend_never_exceeds_budget_witness :
    0 ≤ cfgW.total_budget ∧
    ((runPurchases cfgW (SniperEngine.init .FULL_AUTO)
        [PurchaseEvent.auto oppW now1W respSuccess]).2.sum ≤ cfgW.total_budget ∧
     (runExecutor cfgW executorInit
        [{ item := itemScenarioA, listing := listingW,
           score_result := scoreResultW, current_listings := [listingW],
           response := respSuccess, now := now1W }]).2.sum ≤ cfgW.total_budget) :=
  ⟨by norm_num [cfgW],
   session_spend_never_exceeds_budget cfgW .FULL_AUTO (by norm_num [cfgW]) _ _⟩

/-- Claim C4 (code evaluated at the failing input): in the hour after
midnight UTC both rate-limit checks compute "one hour ago" as 23:xx of
the SAME day — an instant in the future — so they count zero recent
purchases and allow a purchase although a recorded purchase lies twenty
minutes back and the configured maximum of one purchase per hour is
already reached. -/
theorem rate_limit_midnight_window_bug :
    (PurchaseExecutor.check_rate_limit cfgOnePerHour [tMidnightPurchase]
        nowMidnight).2 = true ∧
    (SniperEngine.check_purchase_rate cfgOnePerHour engineMidnight
        nowMidnight).2 = true ∧
    nowMidnight.toRat - tMidnightPurchase.toRat < 3600 ∧
    (([tMidnightPurchase].filter fun t =>
        decide (nowMidnight.toRat - t.toRat < 3600)).length : Int) ≥
      cfgOnePerHour.max_purchases_per_hour := by
  norm_num [PurchaseExecutor.check_rate_limit, SniperEngine.check_purchase_rate,
    executorOneHourAgo, engineHourAgo, DTime.ltb, DTime.toRat, DTime.toSec,
    daysFromCivil, cfgOnePerHour, engineMidnight, SniperEngine.init,
    tMidnightPurchase, nowMidnight, List.filter]

/-- Helper: the scorer returns the item it was given. -/
theorem score_item_eq (sc : SnipeScorer) (item : Item) (price : Int) :
    (sc.score item price).item = item := by
  unfold SnipeScorer.score
  by_cases h : discountPercent item.value price < 20
  · rw [if_pos h]
  · rw [if_neg h]

/-- Helper: appending one opportunity raises the count of its own key by
one and leaves every other key's count unchanged. -/
theorem keyCount_append (l : List Opportunity) (o : Opportunity) (k : Int × Int) :
    keyCount (l ++ [o]) k = keyCount l k + if o.key = k then 1 else 0 := by
  simp only [keyCount, List.filter_append]
  split_ifs with h <;> simp [h]

/-- Helper: the dedup key of the opportunity the scan loop constructs is
the `(item id, listing price)` pair it records. -/
theorem scan_opp_key (sc : SnipeScorer) (item : Item) (listing : Listing) :
    (Opportunity.mk (sc.score item listing.price) listing).key =
      (item.item_id, listing.price) := by
  simp [Opportunity.key, score_item_eq]

/-- Helper: one scan-loop step preserves the dedup invariant: any key
with a constructed opportunity is recorded, and no key ever has more
than one constructed opportunity. -/
theorem scan_listing_key_invariant (pf : PreFilter) (sc : SnipeScorer)
    (now : DTime) (acc : ScanAcc) (item : Item) (listing : Listing)
    (k : Int × Int)
    (h1 : 1 ≤ keyCount acc.opportunities k → k ∈ acc.engine.alerted_items)
    (h2 : keyCount acc.opportunities k ≤ 1) :
    (1 ≤ keyCount (SniperEngine.scan_listing pf sc now acc item listing).opportunities k →
      k ∈ (SniperEngine.scan_listing pf sc now acc item listing).engine.alerted_items) ∧
    keyCount (SniperEngine.scan_listing pf sc now acc item listing).opportunities k ≤ 1 := by
  simp only [SniperEngine.scan_listing]
  split_ifs with hmem hpass hrej
  · exact ⟨h1, h2⟩
  · exact ⟨h1, h2⟩
  · have hkey := scan_opp_key sc item listing
    by_cases hk : (item.item_id, listing.price) = k
    · have hold : keyCount acc.opportunities k = 0 := by
        by_contra hnz
        have hge : 1 ≤ keyCount acc.opportunities k := Nat.one_le_iff_ne_zero.mpr hnz
        exact hmem (hk ▸ h1 hge)
      constructor
      · intro _
        show k ∈ (item.item_id, listing.price) :: acc.engine.alerted_items
        exact hk ▸ List.mem_cons_self _ _
      · show keyCount (acc.opportunities ++
          [Opportunity.mk (sc.score item listing.price) listing]) k ≤ 1
        rw [keyCount_append, hkey, hold, if_pos hk]
    · have hco : keyCount (acc.opportunities ++
          [Opportunity.mk (sc.score item listing.price) listing]) k =
          keyCount acc.opportunities k := by
        rw [keyCount_append, hkey, if_neg hk]
        omega
      constructor
      · intro hge
        show k ∈ (item.item_id, listing.price) :: acc.engine.alerted_items
        refine List.mem_cons_of_mem _ (h1 ?_)
        rwa [hco] at hge
      · show keyCount (acc.opportunities ++
          [Opportunity.mk (sc.score item listing.price) listing]) k ≤ 1
        rw [hco]
        exact h2
  · exact ⟨h1, h2⟩

/-- Helper: the dedup invariant is preserved over any sequence of scan
events. -/
theorem run_scan_key_invariant (pf : PreFilter) (sc : SnipeScorer)
    (k : Int × Int) (events : List ScanEvent) :
    ∀ acc : ScanAcc,
      (1 ≤ keyCount acc.opportunities k → k ∈ acc.engine.alerted_items) →
      keyCount acc.opportunities k ≤ 1 →
      (1 ≤ keyCount (SniperEngine.run_scan pf sc acc events).opportunities k →
        k ∈ (SniperEngine.run_scan pf sc acc events).engine.alerted_items) ∧
      keyCount (SniperEngine.run_scan pf sc acc events).opportunities k ≤ 1 := by
  induction events with
  | nil => intro acc h1 h2; exact ⟨h1, h2⟩
  | cons ev rest ih =>
      intro acc h1 h2
      have hstep := scan_listing_key_invariant pf sc ev.now acc ev.item ev.listing k h1 h2
      simpa only [SniperEngine.run_scan, List.foldl_cons] using
        ih (SniperEngine.scan_listing pf sc ev.now acc ev.item ev.listing)
          hstep.1 hstep.2

/-- Helper: one scan-loop step never removes a key from the dedup
set. -/
theorem scan_listing_alerted_mono (pf : PreFilter) (sc : SnipeScorer)
    (now : DTime) (acc : ScanAcc) (item : Item) (listing : Listing) :
    acc.engine.alerted_items ⊆
      (SniperEngine.scan_listing pf sc now acc item listing).engine.alerted_items := by
  simp only [SniperEngine.scan_listing]
  split_ifs
  · exact List.Subset.refl _
  · exact List.Subset.refl _
  · exact List.subset_cons_self _ _
  · exact List.Subset.refl _

/-- Helper: a key already in the dedup set stays there and yields no new
opportunity in one scan-loop step. -/
theorem scan_listing_alerted_frozen (pf : PreFilter) (sc : SnipeScorer)
    (now : DTime) (acc : ScanAcc) (item : Item) (listing : Listing)
    (k : Int × Int) (hk : k ∈ acc.engine.alerted_items) :
    k ∈ (SniperEngine.scan_listing pf sc now acc item listing).engine.alerted_items ∧
    keyCount (SniperEngine.scan_listing pf sc now acc item listing).opportunities k =
      keyCount acc.opportunities k := by
  simp only [SniperEngine.scan_listing]
  split_ifs with hmem hpass hrej
  · exact ⟨hk, rfl⟩
  · exact ⟨hk, rfl⟩
  · refine ⟨List.mem_cons_of_mem _ hk, ?_⟩
    have hne : ¬ (item.item_id, listing.price) = k := fun he => hmem (he ▸ hk)
    show keyCount (acc.opportunities ++
        [Opportunity.mk (sc.score item listing.price) listing]) k =
      keyCount acc.opportunities k
    rw [keyCount_append, scan_opp_key, if_neg hne]
    omega
  · exact ⟨hk, rfl⟩

/-- Helper: a key already in the dedup set stays there and yields no new
opportunity over any sequence of scan events. -/
theorem run_scan_alerted_frozen (pf : PreFilter) (sc : SnipeScorer)
    (k : Int × Int) (events : List ScanEvent) :
    ∀ acc : ScanAcc, k ∈ acc.engine.alerted_items →
      k ∈ (SniperEngine.run_scan pf sc acc events).engine.alerted_items ∧
      keyCount (SniperEngine.run_scan pf sc acc events).opportunities k =
        keyCount acc.opportunities k := by
  induction events with
  | nil => intro acc hk; exact ⟨hk, rfl⟩
  | cons ev rest ih =>
      intro acc hk
      have hstep := scan_listing_alerted_frozen pf sc ev.now acc ev.item ev.listing k hk
      have htail := ih (SniperEngine.scan_listing pf sc ev.now acc ev.item ev.listing) hstep.1
      refine ⟨?_, ?_⟩
      · simpa only [SniperEngine.run_scan, List.foldl_cons] using htail.1
      · have heq : keyCount (SniperEngine.run_scan pf sc
            (SniperEngine.scan_listing pf sc ev.now acc ev.item ev.listing)
            rest).opportunities k = keyCount acc.opportunities k := by
          rw [htail.2, hstep.2]
        simpa only [SniperEngine.run_scan, List.foldl_cons] using heq

/-- Claim C9: within one engine lifetime, the scan loop constructs at
most one Opportunity per `(item id, price)` key, however many scan
events carry listings with that key; and no scan step ever removes a
key from the dedup set. -/
theorem scan_same_key_at_most_one_opportunity (pf : PreFilter)
    (sc : SnipeScorer) (mode : PurchaseMode) (events : List ScanEvent)
    (k : Int × Int) :
    keyCount (SniperEngine.run_scan pf sc
      { engine := SniperEngine.init mode, opportunities := [] }
      events).opportunities k ≤ 1 ∧
    (∀ (acc : ScanAcc) (now : DTime) (item : Item) (listing : Listing),
      acc.engine.alerted_items ⊆
        (SniperEngine.scan_listing pf sc now acc item listing).engine.alerted_items) := by
  constructor
  · have h := run_scan_key_invariant pf sc k events
      { engine := SniperEngine.init mode, opportunities := [] }
      (by intro hge; simp [keyCount] at hge) (by simp [keyCount])
    exact h.2
  · intro acc now item listing
    exact scan_listing_alerted_mono pf sc now acc item listing

/-- Witness for C9: two scan events with the same item and price yield
at most one opportunity for that key. -/
theorem scan_same_key_at_most_one_opportunity_witness :
    keyCount (SniperEngine.run_scan preFilterDefault scorerDefault
      { engine := SniperEngine.init .FULL_AUTO, opportunities := [] }
      [{ now := now1W, item := itemScenarioA, listing := listingW },
       { now := now2W, item := itemScenarioA, listing := listingW }]).opportunities
      (itemScenarioA.item_id, listingW.price) ≤ 1 :=
  (scan_same_key_at_most_one_opportunity preFilterDefault scorerDefault
    .FULL_AUTO
    [{ now := now1W, item := itemScenarioA, listing := listingW },
     { now := now2W, item := itemScenarioA, listing := listingW }]
    (itemScenarioA.item_id, listingW.price)).1

/-- Helper: `stop` never touches the dedup set. -/
theorem stop_alerted_eq (e : SniperEngine) :
    e.stop.alerted_items = e.alerted_items := by
  unfold SniperEngine.stop
  split_ifs <;> rfl

/-- Helper: after `stop` the engine state is STOPPED. -/
theorem stop_state_eq (e : SniperEngine) : e.stop.state = .STOPPED := by
  unfold SniperEngine.stop
  split_ifs with h
  · exact h
  · rfl

/-- Claim C10: `stop()` followed by `start()` replaces the stats with a
fresh zeroed record stamped `started_at = now`, leaves the dedup set
untouched (as do `stop`, `start`, `pause` and `resume` individually —
only constructing a new engine yields an empty dedup set), and a key
recorded before the restart can never produce another opportunity in any
scan after it. -/
theorem engine_restart_keeps_dedup (e : SniperEngine) (now : DTime) :
    ((e.stop.start now).stats = { started_at := some now }) ∧
    (e.stop.start now).alerted_items = e.alerted_items ∧
    (e.stop.alerted_items = e.alerted_items ∧
      (e.start now).alerted_items = e.alerted_items ∧
      e.pause.alerted_items = e.alerted_items ∧
      e.resume.alerted_items = e.alerted_items ∧
      ∀ mode : PurchaseMode, (SniperEngine.init mode).alerted_items = []) ∧
    ∀ (pf : PreFilter) (sc : SnipeScorer) (events : List ScanEvent)
        (k : Int × Int),
      k ∈ e.alerted_items →
        keyCount (SniperEngine.run_scan pf sc
          { engine := e.stop.start now, opportunities := [] }
          events).opportunities k = 0 := by
  have hstart : e.stop.start now =
      { e.stop with state := .RUNNING, stats := { started_at := some now } } := by
    unfold SniperEngine.start
    rw [if_neg]
    rw [stop_state_eq]
    decide
  have halerted : (e.stop.start now).alerted_items = e.alerted_items := by
    rw [hstart]
    show e.stop.alerted_items = e.alerted_items
    exact stop_alerted_eq e
  refine ⟨by rw [hstart], halerted,
    ⟨stop_alerted_eq e, ?_, ?_, ?_, fun mode => rfl⟩, ?_⟩
  · unfold SniperEngine.start
    split_ifs <;> rfl
  · unfold SniperEngine.pause
    split_ifs <;> rfl
  · unfold SniperEngine.resume
    split_ifs <;> rfl
  · intro pf sc events k hk
    have hmem : k ∈ ({ engine := e.stop.start now, opportunities := [] } : ScanAcc).engine.alerted_items := by
      show k ∈ (e.stop.start now).alerted_items
      rw [halerted]
      exact hk
    have h := run_scan_alerted_frozen pf sc k events
      { engine := e.stop.start now, opportunities := [] } hmem
    rw [h.2]
    simp [keyCount]

/-- Witness for C10: restarting an engine whose dedup set records
(1, 100) keeps that key, resets the stats, and a later scan event with
that exact item and price constructs no opportunity. -/
theorem engine_restart_keeps_dedup_witness :
    (engineAlerted.stop.start now1W).stats = { started_at := some now1W } ∧
    (engineAlerted.stop.start now1W).alerted_items = engineAlerted.alerted_items ∧
    keyCount (SniperEngine.run_scan preFilterDefault scorerDefault
      { engine := engineAlerted.stop.start now1W, opportunities := [] }
      [{ now := now1W, item := itemScenarioA, listing := listingW }]).opportunities
      (1, 100) = 0 :=
  ⟨(engine_restart_keeps_dedup engineAlerted now1W).1,
   (engine_restart_keeps_dedup engineAlerted now1W).2.1,
   (engine_restart_keeps_dedup engineAlerted now1W).2.2.2 preFilterDefault
     scorerDefault [{ now := now1W, item := itemScenarioA, listing := listingW }]
     (1, 100) (by simp [engineAlerted, SniperEngine.init])⟩

end RISniper
